import Mathlib

/-!
Shallow embedding of the EventStateMachine library
(src/src/EventStateMachine.cpp with the cross-platform header), in its
polling configuration (RP2040 / `!defined(ESP8266) && !defined(ESP32)`
code paths, `std::vector` containers, millis-based `TimerImplementation`).

Function pointers (`StateCallback`, `StateFunction`, `GlobalStateCallback`)
are modelled as `Option Nat`: `none` is `nullptr`, `some k` is a concrete
non-null function identified by `k`.  Callback bodies are opaque: every
invocation the engine performs is recorded as an event in a trace, in the
order the C++ code performs it, and the trace is returned next to the
mutated machine.  Times (`millis()` values, `unsigned long`) are natural
numbers; the wraparound-sensitive elapsed-time subtraction is modelled
with an explicit `% 2^32`.
-/

namespace ESM

/-- `void (*)(uint8_t currentState, uint8_t otherState)`; `none` = `nullptr`. -/
abbrev StateCallback := Option Nat

/-- `void (*)(uint8_t state)`; `none` = `nullptr`. -/
abbrev StateFunction := Option Nat

/-- `void (*)(uint8_t fromState, uint8_t toState)`; `none` = `nullptr`. -/
abbrev GlobalStateCallback := Option Nat

/-- Modulus of `unsigned long` (32-bit on the embedded targets). -/
def ULMOD : Nat := 4294967296

/-- `now - start` as computed on `unsigned long` values, i.e. wraparound-safe
unsigned subtraction modulo `2^32`. -/
def millisSub (now start : Nat) : Nat :=
  (now % ULMOD + ULMOD - start % ULMOD) % ULMOD

/-- The polling `TimerImplementation` of the cross-platform header: a one-shot
countdown driven by `millis()`.  Its `callback` field is the `void (*)(void)`
argument of `once_ms`; the engine always passes `nullptr` there on this
platform, so an invocation of it has no observable effect beyond `update`'s
Boolean result. -/
structure TimerImplementation where
  startTime : Nat := 0
  duration : Nat := 0
  active : Bool := false
  callback : Option Nat := none
deriving Repr, DecidableEq

namespace TimerImplementation

/-- `once_ms(ms, func)`: record the start time, duration and callback and
activate the countdown. -/
def once_ms (t : TimerImplementation) (now ms : Nat) (func : Option Nat) :
    TimerImplementation :=
  { t with startTime := now, duration := ms, callback := func, active := true }

/-- `detach()`: deactivate the countdown (idempotent). -/
def detach (t : TimerImplementation) : TimerImplementation :=
  { t with active := false }

/-- `update()`: if active and expired, deactivate; then, only when the stored
callback is non-null, invoke it and report `true`.  With a null callback the
function reports `false` even on expiry — exactly as the C++ reads. -/
def update (t : TimerImplementation) (now : Nat) :
    TimerImplementation × Bool :=
  if t.active ∧ millisSub now t.startTime ≥ t.duration then
    match t.callback with
    | some _ => ({ t with active := false }, true)
    | none => ({ t with active := false }, false)
  else (t, false)

/-- `isActive()`. -/
def isActive (t : TimerImplementation) : Bool := t.active

end TimerImplementation

/-- `TimeoutInfo` (non-ESP variant, which carries `stateIndex` and
`timeoutIndex`). -/
structure TimeoutInfo where
  duration : Nat := 0
  callback : StateCallback := none
  timer : TimerImplementation := {}
  active : Bool := false
  stateIndex : Nat := 0
  timeoutIndex : Nat := 0
deriving Repr, DecidableEq

/-- `StateDefinition`: the four per-state callback containers. -/
structure StateDefinition where
  timeouts : List TimeoutInfo := []
  onEnters : List StateCallback := []
  onStates : List StateFunction := []
  onExits : List StateCallback := []
deriving Repr, DecidableEq

/-- The observable events of a run: every callback invocation and every
timer detach/arm the engine performs, in program order. -/
inductive Ev where
  | beforeH (handler : GlobalStateCallback) (fromState toState : Nat)
  | cancelTimer (state idx : Nat)
  | exitCb (cb : StateCallback) (cur newState : Nat)
  | enterCb (cb : StateCallback) (cur prev : Nat)
  | armTimer (state idx duration : Nat)
  | timeoutCb (cb : StateCallback) (cur prev : Nat)
  | stateFn (f : StateFunction) (cur : Nat)
  | afterH (handler : GlobalStateCallback) (fromState toState : Nat)
deriving Repr, DecidableEq

/-- The machine's fields, mirroring the private section of the class. -/
structure EventStateMachine where
  currentState : Nat
  previousState : Nat
  stateChanged : Bool
  states : List StateDefinition
  numStates : Nat
  stateEnteredTime : Nat
  debugEnabled : Bool
  beforeStateChangeHandlers : List GlobalStateCallback
  afterStateChangeHandlers : List GlobalStateCallback
deriving Repr, DecidableEq

namespace EventStateMachine

/-- `states[i]` as a total read (every guarded access in the code is
in bounds, where this equals the raw array access). -/
def stateDef (m : EventStateMachine) (i : Nat) : StateDefinition :=
  m.states.getD i {}

/-- Write back `states[i]`. -/
def setStateDefn (m : EventStateMachine) (i : Nat) (sd : StateDefinition) :
    EventStateMachine :=
  { m with states := m.states.set i sd }

/-- `EventStateMachine(numberOfStates)`: allocate `numStates` default
`StateDefinition`s and initialise the fields, capturing `millis()` as the
entered time.  There is no check on `numberOfStates`. -/
def construct (numberOfStates : Nat) (now : Nat) : EventStateMachine :=
  { numStates := numberOfStates
    states := List.replicate numberOfStates {}
    currentState := 0
    previousState := 0
    stateChanged := true
    stateEnteredTime := now
    debugEnabled := false
    beforeStateChangeHandlers := []
    afterStateChangeHandlers := [] }

/-- `isValidState(state)`. -/
def isValidState (m : EventStateMachine) (state : Nat) : Prop :=
  state < m.numStates

instance (m : EventStateMachine) (state : Nat) :
    Decidable (m.isValidState state) := by
  unfold isValidState; infer_instance

/-- `onTimeout(state, timeoutIndex)`: fire the entry only when the state is
still current and the index is in bounds; mark it inactive, then invoke its
callback with `(currentState, previousState)`. -/
def onTimeout (m : EventStateMachine) (state timeoutIndex : Nat) :
    EventStateMachine × List Ev :=
  if m.currentState = state ∧ timeoutIndex < (m.stateDef state).timeouts.length then
    let sd := m.stateDef state
    let ti := sd.timeouts.getD timeoutIndex {}
    let m1 := m.setStateDefn state
      { sd with timeouts := sd.timeouts.set timeoutIndex { ti with active := false } }
    (m1, [Ev.timeoutCb ti.callback m1.currentState m1.previousState])
  else (m, [])

/-- `addTimeout(state, timeout, onTimeout)`: validate, then append a fresh
`TimeoutInfo` (inactive, default timer, with the non-ESP `stateIndex` /
`timeoutIndex` bookkeeping fields set). -/
def addTimeout (m : EventStateMachine) (state timeout : Nat)
    (onTimeout : StateCallback) : EventStateMachine × Bool :=
  if ¬ m.isValidState state ∨ onTimeout = none then (m, false)
  else
    let sd := m.stateDef state
    let ti : TimeoutInfo :=
      { duration := timeout, callback := onTimeout, active := false
        stateIndex := state, timeoutIndex := sd.timeouts.length }
    (m.setStateDefn state { sd with timeouts := sd.timeouts ++ [ti] }, true)

/-- `addOnEnter(state, onEnter)`. -/
def addOnEnter (m : EventStateMachine) (state : Nat) (onEnter : StateCallback) :
    EventStateMachine × Bool :=
  if ¬ m.isValidState state ∨ onEnter = none then (m, false)
  else
    let sd := m.stateDef state
    (m.setStateDefn state { sd with onEnters := sd.onEnters ++ [onEnter] }, true)

/-- `addOnState(state, onState)`. -/
def addOnState (m : EventStateMachine) (state : Nat) (onState : StateFunction) :
    EventStateMachine × Bool :=
  if ¬ m.isValidState state ∨ onState = none then (m, false)
  else
    let sd := m.stateDef state
    (m.setStateDefn state { sd with onStates := sd.onStates ++ [onState] }, true)

/-- `addOnExit(state, onExit)`. -/
def addOnExit (m : EventStateMachine) (state : Nat) (onExit : StateCallback) :
    EventStateMachine × Bool :=
  if ¬ m.isValidState state ∨ onExit = none then (m, false)
  else
    let sd := m.stateDef state
    (m.setStateDefn state { sd with onExits := sd.onExits ++ [onExit] }, true)

/-- `removeTimeout(state, timeout)`: linear scan for the first entry whose
`duration` equals `timeout`; on a hit, detach its timer and clear its active
flag, then erase it and return `true`.  The detach is recorded as a
`cancelTimer` event. -/
def removeTimeout (m : EventStateMachine) (state timeout : Nat) :
    EventStateMachine × Bool × List Ev :=
  if ¬ m.isValidState state then (m, false, [])
  else
    let sd := m.stateDef state
    match sd.timeouts.findIdx? (fun ti => ti.duration == timeout) with
    | some i =>
      let ti := sd.timeouts.getD i {}
      let stopped := sd.timeouts.set i { ti with timer := ti.timer.detach, active := false }
      (m.setStateDefn state { sd with timeouts := stopped.eraseIdx i },
       true, [Ev.cancelTimer state i])
    | none => (m, false, [])

/-- `removeOnEnter(state, onEnter)`: erase the first entry equal to the given
callback. -/
def removeOnEnter (m : EventStateMachine) (state : Nat) (onEnter : StateCallback) :
    EventStateMachine × Bool :=
  if ¬ m.isValidState state then (m, false)
  else
    let sd := m.stateDef state
    match sd.onEnters.findIdx? (fun cb => cb == onEnter) with
    | some i => (m.setStateDefn state { sd with onEnters := sd.onEnters.eraseIdx i }, true)
    | none => (m, false)

/-- `removeOnState(state, onState)`. -/
def removeOnState (m : EventStateMachine) (state : Nat) (onState : StateFunction) :
    EventStateMachine × Bool :=
  if ¬ m.isValidState state then (m, false)
  else
    let sd := m.stateDef state
    match sd.onStates.findIdx? (fun f => f == onState) with
    | some i => (m.setStateDefn state { sd with onStates := sd.onStates.eraseIdx i }, true)
    | none => (m, false)

/-- `removeOnExit(state, onExit)`. -/
def removeOnExit (m : EventStateMachine) (state : Nat) (onExit : StateCallback) :
    EventStateMachine × Bool :=
  if ¬ m.isValidState state then (m, false)
  else
    let sd := m.stateDef state
    match sd.onExits.findIdx? (fun cb => cb == onExit) with
    | some i => (m.setStateDefn state { sd with onExits := sd.onExits.eraseIdx i }, true)
    | none => (m, false)

/-- `addBeforeStateChangeHandler(handler)`: append when non-null. -/
def addBeforeStateChangeHandler (m : EventStateMachine)
    (handler : GlobalStateCallback) : EventStateMachine :=
  if handler ≠ none then
    { m with beforeStateChangeHandlers := m.beforeStateChangeHandlers ++ [handler] }
  else m

/-- `addAfterStateChangeHandler(handler)`. -/
def addAfterStateChangeHandler (m : EventStateMachine)
    (handler : GlobalStateCallback) : EventStateMachine :=
  if handler ≠ none then
    { m with afterStateChangeHandlers := m.afterStateChangeHandlers ++ [handler] }
  else m

/-- `removeBeforeStateChangeHandler(handler)`. -/
def removeBeforeStateChangeHandler (m : EventStateMachine)
    (handler : GlobalStateCallback) : EventStateMachine × Bool :=
  match m.beforeStateChangeHandlers.findIdx? (fun h => h == handler) with
  | some i =>
    ({ m with beforeStateChangeHandlers := m.beforeStateChangeHandlers.eraseIdx i }, true)
  | none => (m, false)

/-- `removeAfterStateChangeHandler(handler)`. -/
def removeAfterStateChangeHandler (m : EventStateMachine)
    (handler : GlobalStateCallback) : EventStateMachine × Bool :=
  match m.afterStateChangeHandlers.findIdx? (fun h => h == handler) with
  | some i =>
    ({ m with afterStateChangeHandlers := m.afterStateChangeHandlers.eraseIdx i }, true)
  | none => (m, false)

/-- `setState(newState)`, the transition engine, on the polling build: guard
invalid and same-state calls away, then fire before-handlers, detach the old
state's timers, fire its exit callbacks, swap the state fields, fire the new
state's enter callbacks, arm its timeouts (each `once_ms` gets a `nullptr`
callback on this platform), and fire after-handlers. -/
def setState (m : EventStateMachine) (now newState : Nat) :
    EventStateMachine × List Ev :=
  if ¬ m.isValidState newState then (m, [])
  else if newState = m.currentState then (m, [])
  else
    let beforeEvs := m.beforeStateChangeHandlers.map
      (fun h => Ev.beforeH h m.currentState newState)
    let oldSd := m.stateDef m.currentState
    let cancelEvs := (List.range oldSd.timeouts.length).map
      (fun i => Ev.cancelTimer m.currentState i)
    let stoppedTimeouts := oldSd.timeouts.map
      (fun ti => { ti with timer := ti.timer.detach, active := false })
    let oldSd1 := { oldSd with timeouts := stoppedTimeouts }
    let m1 := m.setStateDefn m.currentState oldSd1
    let exitEvs := (m1.stateDef m1.currentState).onExits.map
      (fun cb => Ev.exitCb cb m1.currentState newState)
    let m2 := { m1 with previousState := m1.currentState, currentState := newState,
                        stateEnteredTime := now, stateChanged := true }
    let newSd := m2.stateDef m2.currentState
    let enterEvs := newSd.onEnters.map
      (fun cb => Ev.enterCb cb m2.currentState m2.previousState)
    let armEvs := (List.range newSd.timeouts.length).map
      (fun i => Ev.armTimer m2.currentState i (newSd.timeouts.getD i {}).duration)
    let armedTimeouts := (List.range newSd.timeouts.length).map
      (fun i =>
        let ti := newSd.timeouts.getD i {}
        { ti with stateIndex := m2.currentState, timeoutIndex := i, active := true,
                  timer := ti.timer.once_ms now ti.duration none })
    let newSd1 := { newSd with timeouts := armedTimeouts }
    let m3 := m2.setStateDefn m2.currentState newSd1
    let afterEvs := m3.afterStateChangeHandlers.map
      (fun h => Ev.afterH h m3.previousState m3.currentState)
    (m3, beforeEvs ++ cancelEvs ++ exitEvs ++ enterEvs ++ armEvs ++ afterEvs)

/-- One iteration of `update()`'s timer loop at index `i`: re-read the entry,
short-circuit on its `active` flag, run `timer.update()` (writing the mutated
timer back), and dispatch `onTimeout` when it reported `true`. -/
def updateTimerStep (now : Nat) (acc : EventStateMachine × List Ev) (i : Nat) :
    EventStateMachine × List Ev :=
  let mm := acc.1
  let ti := (mm.stateDef mm.currentState).timeouts.getD i {}
  if ti.active then
    let r := ti.timer.update now
    let sd := mm.stateDef mm.currentState
    let mm1 := mm.setStateDefn mm.currentState
      { sd with timeouts := sd.timeouts.set i { ti with timer := r.1 } }
    if r.2 then
      let fired := mm1.onTimeout mm1.currentState i
      (fired.1, acc.2 ++ fired.2)
    else (mm1, acc.2)
  else acc

/-- `update()` on the polling build: scan the current state's timeout list and
dispatch expired timers, then run every `onState` function of the current
state, then clear `stateChanged`. -/
def update (m : EventStateMachine) (now : Nat) :
    EventStateMachine × List Ev :=
  let n := (m.stateDef m.currentState).timeouts.length
  let r := (List.range n).foldl (updateTimerStep now) (m, [])
  let stEvs := (r.1.stateDef r.1.currentState).onStates.map
    (fun f => Ev.stateFn f r.1.currentState)
  ({ r.1 with stateChanged := false }, r.2 ++ stEvs)

/-- `configureState(state, timeout, onEnter, onState, onExit, onTimeout)`:
validate the state, then add each non-null callback; the timeout is forwarded
to `addTimeout` only when `timeout > 0` and the callback is non-null. -/
def configureState (m : EventStateMachine) (state timeout : Nat)
    (onEnter : StateCallback) (onState : StateFunction)
    (onExit : StateCallback) (onTimeout : StateCallback) : EventStateMachine :=
  if ¬ m.isValidState state then m
  else
    let m1 := if onEnter ≠ none then (m.addOnEnter state onEnter).1 else m
    let m2 := if onState ≠ none then (m1.addOnState state onState).1 else m1
    let m3 := if onExit ≠ none then (m2.addOnExit state onExit).1 else m2
    if timeout > 0 ∧ onTimeout ≠ none then (m3.addTimeout state timeout onTimeout).1
    else m3

/-- `getCurrentState()`. -/
def getCurrentState (m : EventStateMachine) : Nat := m.currentState

/-- `getPreviousState()`. -/
def getPreviousState (m : EventStateMachine) : Nat := m.previousState

/-- `isStateChanged()`. -/
def isStateChanged (m : EventStateMachine) : Bool := m.stateChanged

/-- `timeInCurrentState()` = `millis() - stateEnteredTime`. -/
def timeInCurrentState (m : EventStateMachine) (now : Nat) : Nat :=
  millisSub now m.stateEnteredTime

end EventStateMachine

/-! ## Derived definitions and concrete demonstration machines -/

/-- Two machine values agree on the state-identity core: current state,
previous state, state count and the changed flag.  Every operation except a
successful transition and `update` preserves all four. -/
def SameCore (m m' : EventStateMachine) : Prop :=
  m'.currentState = m.currentState ∧ m'.previousState = m.previousState ∧
  m'.numStates = m.numStates ∧ m'.stateChanged = m.stateChanged

/-- The validity invariant of the spec: both state fields are in range. -/
def ValidStateInv (m : EventStateMachine) : Prop :=
  m.currentState < m.numStates ∧ m.previousState < m.numStates

/-- The C2 scenario machine: 3 states, one 100 ms timeout with callback 7 on
state 1, after `setState(1)` at time 0 (polling platform). -/
def pollingScenario : EventStateMachine :=
  (((EventStateMachine.construct 3 0).addTimeout 1 100 (some 7)).1.setState 0 1).1

/-- A 2-state machine whose state 0 (the current state) carries a 30 ms
timeout with callback 5. -/
def staleTimerDemo : EventStateMachine :=
  ((EventStateMachine.construct 2 0).addTimeout 0 30 (some 5)).1

/-- A 2-state machine with duplicate entries in every per-state container of
state 0 and one distinct entry in between, for exercising first-match
removal. -/
def duplicateEntryDemo : EventStateMachine :=
  let a := EventStateMachine.construct 2 0
  let a := (a.addOnEnter 0 (some 4)).1
  let a := (a.addOnEnter 0 (some 6)).1
  let a := (a.addOnEnter 0 (some 4)).1
  let a := (a.addOnState 0 (some 4)).1
  let a := (a.addOnState 0 (some 4)).1
  let a := (a.addOnExit 0 (some 4)).1
  let a := (a.addOnExit 0 (some 4)).1
  let a := (a.addTimeout 0 25 (some 4)).1
  let a := (a.addTimeout 0 25 (some 9)).1
  a

/-- A 3-state machine with two callbacks of every kind, a timeout on states 0
and 1 each, and one global handler on each side, for exercising the full
transition sequence. -/
def transitionDemo : EventStateMachine :=
  let a := EventStateMachine.construct 3 0
  let a := (a.addOnExit 0 (some 10)).1
  let a := (a.addOnExit 0 (some 11)).1
  let a := (a.addOnEnter 1 (some 20)).1
  let a := (a.addOnEnter 1 (some 21)).1
  let a := (a.addTimeout 1 100 (some 7)).1
  let a := (a.addTimeout 0 50 (some 8)).1
  let a := a.addBeforeStateChangeHandler (some 30)
  let a := a.addAfterStateChangeHandler (some 40)
  a

end ESM

/-! ## Helper lemmas -/

namespace ESM

namespace EventStateMachine

lemma getD_set {α : Type} (l : List α) (i j : Nat) (a d : α) :
    (l.set i a).getD j d = if i = j ∧ i < l.length then a else l.getD j d := by
  induction l generalizing i j with
  | nil => simp
  | cons hd tl ih =>
    cases i with
    | zero => cases j <;> simp
    | succ i =>
      cases j with
      | zero => simp
      | succ j =>
        simpa [Nat.succ_lt_succ_iff] using ih i j

@[simp] lemma currentState_setStateDefn (m : EventStateMachine) (i : Nat)
    (sd : StateDefinition) : (m.setStateDefn i sd).currentState = m.currentState := rfl

@[simp] lemma previousState_setStateDefn (m : EventStateMachine) (i : Nat)
    (sd : StateDefinition) : (m.setStateDefn i sd).previousState = m.previousState := rfl

@[simp] lemma numStates_setStateDefn (m : EventStateMachine) (i : Nat)
    (sd : StateDefinition) : (m.setStateDefn i sd).numStates = m.numStates := rfl

@[simp] lemma stateChanged_setStateDefn (m : EventStateMachine) (i : Nat)
    (sd : StateDefinition) : (m.setStateDefn i sd).stateChanged = m.stateChanged := rfl

@[simp] lemma stateEnteredTime_setStateDefn (m : EventStateMachine) (i : Nat)
    (sd : StateDefinition) : (m.setStateDefn i sd).stateEnteredTime = m.stateEnteredTime := rfl

@[simp] lemma beforeHandlers_setStateDefn (m : EventStateMachine) (i : Nat)
    (sd : StateDefinition) :
    (m.setStateDefn i sd).beforeStateChangeHandlers = m.beforeStateChangeHandlers := rfl

@[simp] lemma afterHandlers_setStateDefn (m : EventStateMachine) (i : Nat)
    (sd : StateDefinition) :
    (m.setStateDefn i sd).afterStateChangeHandlers = m.afterStateChangeHandlers := rfl

lemma stateDef_setStateDefn (m : EventStateMachine) (i j : Nat) (sd : StateDefinition) :
    (m.setStateDefn i sd).stateDef j =
      if i = j ∧ i < m.states.length then sd else m.stateDef j := by
  show (m.states.set i sd).getD j {} = _
  rw [getD_set]
  rfl

lemma stateDef_setStateDefn_ne (m : EventStateMachine) (i j : Nat) (sd : StateDefinition)
    (h : i ≠ j) : (m.setStateDefn i sd).stateDef j = m.stateDef j := by
  simp [stateDef_setStateDefn, h]

end EventStateMachine

/-! ## The claims -/

open EventStateMachine

/-- Claim C6: calling `setState` with the current state itself invokes no
callback or handler, cancels or rearms no timer, and leaves every machine
field unchanged — the result is the unchanged machine with an empty event
trace. -/
theorem setState_self_noop (m : EventStateMachine) (now : Nat) :
    m.setState now m.currentState = (m, []) := by
  unfold EventStateMachine.setState
  split
  · rfl
  · simp

/-- Claim C7: for every `newState ≥ numStates`, `setState` is a silent no-op
(unchanged machine, no events), and every state-scoped add/remove operation
with an invalid state id returns `false` without mutating the machine. -/
theorem invalid_state_noop (m : EventStateMachine) (s : Nat) (h : m.numStates ≤ s)
    (now d : Nat) (cb : StateCallback) (f : StateFunction) :
    m.setState now s = (m, []) ∧
    m.addTimeout s d cb = (m, false) ∧
    m.addOnEnter s cb = (m, false) ∧
    m.addOnState s f = (m, false) ∧
    m.addOnExit s cb = (m, false) ∧
    m.removeTimeout s d = (m, false, []) ∧
    m.removeOnEnter s cb = (m, false) ∧
    m.removeOnState s f = (m, false) ∧
    m.removeOnExit s cb = (m, false) := by
  have hv : ¬ m.isValidState s := by unfold EventStateMachine.isValidState; omega
  refine ⟨?_, ?_, ?_, ?_, ?_, ?_, ?_, ?_, ?_⟩ <;>
    simp [EventStateMachine.setState, EventStateMachine.addTimeout,
      EventStateMachine.addOnEnter, EventStateMachine.addOnState,
      EventStateMachine.addOnExit, EventStateMachine.removeTimeout,
      EventStateMachine.removeOnEnter, EventStateMachine.removeOnState,
      EventStateMachine.removeOnExit, hv]

/-- Witness for `invalid_state_noop`: `setState(5)` on a 3-state machine is the
identity with no events, and the adds/removes at state 5 all return false. -/
theorem invalid_state_noop_witness :
    (construct 3 0).setState 7 5 = (construct 3 0, []) ∧
    ((construct 3 0).addTimeout 5 100 (some 1)) = (construct 3 0, false) := by
  have h := invalid_state_noop (construct 3 0) 5 (by decide) 7 100 (some 1) (some 2)
  exact ⟨h.1, h.2.1⟩

/-- Claim C3 counterexample: constructing with `numStates == 0` does not fail —
the constructor has no check, returns a machine with zero state records, and
leaves `currentState = 0` out of range. -/
theorem construct_zero_succeeds :
    construct 0 0 =
      { numStates := 0, states := [], currentState := 0, previousState := 0,
        stateChanged := true, stateEnteredTime := 0, debugEnabled := false,
        beforeStateChangeHandlers := [], afterStateChangeHandlers := [] } ∧
    ¬ (construct 0 0).isValidState (construct 0 0).currentState := by
  exact ⟨rfl, by decide⟩

/-- Claim C3 (amended): `construct(numStates)` performs no validation of
`numStates`; for every value (including 0) it allocates exactly `numStates`
state records and initialises `currentState = 0`, `previousState = 0`,
`stateChanged = true` and the entered timestamp to the current time. -/
theorem construct_initializes (n now : Nat) :
    (construct n now).states.length = n ∧
    (construct n now).numStates = n ∧
    (construct n now).currentState = 0 ∧
    (construct n now).previousState = 0 ∧
    (construct n now).stateChanged = true ∧
    (construct n now).stateEnteredTime = now := by
  simp [EventStateMachine.construct]

/-- Claim C2 fails on the code: in the scenario the timeout entry is armed and
active, 150 ms have elapsed (≥ 100 ms), yet `update()` at t=150 produces no
callback invocation at all, and neither does a later `update()` — because
`setState` arms the polling timer with a null callback and
`TimerImplementation::update` reports expiry only after invoking a non-null
callback, `onTimeout` is never dispatched. -/
theorem polling_timeout_never_dispatched :
    ((pollingScenario.stateDef 1).timeouts.getD 0 {}).active = true ∧
    ((pollingScenario.stateDef 1).timeouts.getD 0 {}).duration = 100 ∧
    ((pollingScenario.stateDef 1).timeouts.getD 0 {}).timer.active = true ∧
    100 ≤ millisSub 150 0 ∧
    (pollingScenario.update 150).2 = [] ∧
    ((pollingScenario.update 150).1.update 300).2 = [] := by
  decide

lemma stateDef_oob (m : EventStateMachine) (i : Nat) (h : m.states.length ≤ i) :
    m.stateDef i = {} :=
  List.getD_eq_default _ _ h

/-- Claim C5: `onTimeout(state, timeoutIndex)` invokes a timeout entry's
callback only when `state` is the current state and the index is within the
current bounds of that state's timeout list; on a match it marks the entry
inactive and invokes the callback with `(currentState, previousState)`; for a
state that is not current it does nothing at all. -/
theorem onTimeout_guard (m : EventStateMachine) (state idx : Nat) :
    (state ≠ m.currentState → m.onTimeout state idx = (m, [])) ∧
    ((m.stateDef state).timeouts.length ≤ idx → m.onTimeout state idx = (m, [])) ∧
    (m.currentState = state → idx < (m.stateDef state).timeouts.length →
      (m.onTimeout state idx).2 =
        [Ev.timeoutCb ((m.stateDef state).timeouts.getD idx {}).callback
          m.currentState m.previousState] ∧
      (((m.onTimeout state idx).1.stateDef state).timeouts.getD idx {}).active = false ∧
      ((m.onTimeout state idx).1.stateDef state).timeouts.length =
        (m.stateDef state).timeouts.length) := by
  refine ⟨?_, ?_, ?_⟩
  · intro h
    simp [EventStateMachine.onTimeout, Ne.symm h]
  · intro h
    simp [EventStateMachine.onTimeout, Nat.not_lt.2 h]
  · intro h1 h2
    have hst : state < m.states.length := by
      by_contra hc
      rw [stateDef_oob m state (Nat.le_of_not_lt hc)] at h2
      simp at h2
    unfold EventStateMachine.onTimeout
    rw [if_pos ⟨h1, h2⟩]
    refine ⟨by simp, ?_, ?_⟩
    · simp [stateDef_setStateDefn, hst, getD_set, h2]
    · simp [stateDef_setStateDefn, hst]

/-- Witness for `onTimeout_guard`: a late fire for the non-current state 1 is
suppressed, while a fire for the current state 0 invokes callback 5 with
`(0, 0)`. -/
theorem onTimeout_guard_witness :
    staleTimerDemo.onTimeout 1 0 = (staleTimerDemo, []) ∧
    (staleTimerDemo.onTimeout 0 0).2 = [Ev.timeoutCb (some 5) 0 0] := by
  refine ⟨(onTimeout_guard staleTimerDemo 1 0).1 (by decide), ?_⟩
  have h := ((onTimeout_guard staleTimerDemo 0 0).2.2 (by decide) (by decide)).1
  rw [h]
  decide

lemma timeouts_addOnEnter (m : EventStateMachine) (s s' : Nat) (cb : StateCallback) :
    (((m.addOnEnter s cb).1).stateDef s').timeouts = (m.stateDef s').timeouts := by
  unfold EventStateMachine.addOnEnter
  split
  · rfl
  · rw [stateDef_setStateDefn]
    split_ifs with h
    · rcases h with ⟨rfl, -⟩
      rfl
    · rfl

lemma timeouts_addOnState (m : EventStateMachine) (s s' : Nat) (f : StateFunction) :
    (((m.addOnState s f).1).stateDef s').timeouts = (m.stateDef s').timeouts := by
  unfold EventStateMachine.addOnState
  split
  · rfl
  · rw [stateDef_setStateDefn]
    split_ifs with h
    · rcases h with ⟨rfl, -⟩
      rfl
    · rfl

lemma timeouts_addOnExit (m : EventStateMachine) (s s' : Nat) (cb : StateCallback) :
    (((m.addOnExit s cb).1).stateDef s').timeouts = (m.stateDef s').timeouts := by
  unfold EventStateMachine.addOnExit
  split
  · rfl
  · rw [stateDef_setStateDefn]
    split_ifs with h
    · rcases h with ⟨rfl, -⟩
      rfl
    · rfl

lemma timeouts_configureState_zero (m : EventStateMachine) (s s' : Nat)
    (e x t : StateCallback) (f : StateFunction) :
    ((m.configureState s 0 e f x t).stateDef s').timeouts = (m.stateDef s').timeouts := by
  unfold EventStateMachine.configureState
  split
  · rfl
  · rw [if_neg (by simp)]
    split_ifs <;>
      simp [timeouts_addOnEnter, timeouts_addOnState, timeouts_addOnExit]

/-- Claim C10: for every valid state and non-null callback, `addTimeout` with
duration 0 is not rejected — it returns `true` and appends an entry with
duration 0 — whereas `configureState` forwards its timeout argument to
`addTimeout` only when it is strictly positive, so a zero timeout there leaves
the state's timeout list unchanged. -/
theorem addTimeout_zero_duration (m : EventStateMachine) (s c : Nat)
    (hs : m.isValidState s) (hwf : m.states.length = m.numStates)
    (e x t : StateCallback) (f : StateFunction) :
    (m.addTimeout s 0 (some c)).2 = true ∧
    ((m.addTimeout s 0 (some c)).1.stateDef s).timeouts =
      (m.stateDef s).timeouts ++
        [{ duration := 0, callback := some c, active := false, stateIndex := s,
           timeoutIndex := (m.stateDef s).timeouts.length }] ∧
    ((m.configureState s 0 e f x t).stateDef s).timeouts = (m.stateDef s).timeouts := by
  have hlt : s < m.states.length := by rw [hwf]; exact hs
  refine ⟨?_, ?_, timeouts_configureState_zero m s s e x t f⟩
  · simp [EventStateMachine.addTimeout, hs]
  · unfold EventStateMachine.addTimeout
    rw [if_neg (by simp [hs])]
    rw [stateDef_setStateDefn]
    simp [hlt]

/-- Witness for `addTimeout_zero_duration` on a concrete 2-state machine. -/
theorem addTimeout_zero_duration_witness :
    ((construct 2 0).addTimeout 0 0 (some 9)).2 = true ∧
    (((construct 2 0).addTimeout 0 0 (some 9)).1.stateDef 0).timeouts =
      [{ duration := 0, callback := some 9, active := false, stateIndex := 0,
         timeoutIndex := 0 }] ∧
    (((construct 2 0).configureState 0 0 (some 1) (some 2) (some 3)
        (some 4)).stateDef 0).timeouts = [] := by
  have h := addTimeout_zero_duration (construct 2 0) 0 9 (by decide) (by decide)
    (some 1) (some 3) (some 4) (some 2)
  refine ⟨h.1, ?_, ?_⟩
  · rw [h.2.1]
    decide
  · rw [h.2.2]
    decide

lemma sameCore_refl (m : EventStateMachine) : SameCore m m :=
  ⟨rfl, rfl, rfl, rfl⟩

lemma sameCore_trans {a b c : EventStateMachine} (h1 : SameCore a b)
    (h2 : SameCore b c) : SameCore a c := by
  obtain ⟨x1, x2, x3, x4⟩ := h1
  obtain ⟨y1, y2, y3, y4⟩ := h2
  exact ⟨y1.trans x1, y2.trans x2, y3.trans x3, y4.trans x4⟩

lemma sameCore_setStateDefn (m : EventStateMachine) (i : Nat) (sd : StateDefinition) :
    SameCore m (m.setStateDefn i sd) :=
  ⟨rfl, rfl, rfl, rfl⟩

lemma sameCore_onTimeout (m : EventStateMachine) (s i : Nat) :
    SameCore m (m.onTimeout s i).1 := by
  unfold EventStateMachine.onTimeout
  split
  · exact sameCore_setStateDefn _ _ _
  · exact sameCore_refl _

lemma sameCore_addTimeout (m : EventStateMachine) (s d : Nat) (cb : StateCallback) :
    SameCore m (m.addTimeout s d cb).1 := by
  unfold EventStateMachine.addTimeout
  split
  · exact sameCore_refl _
  · exact sameCore_setStateDefn _ _ _

lemma sameCore_addOnEnter (m : EventStateMachine) (s : Nat) (cb : StateCallback) :
    SameCore m (m.addOnEnter s cb).1 := by
  unfold EventStateMachine.addOnEnter
  split
  · exact sameCore_refl _
  · exact sameCore_setStateDefn _ _ _

lemma sameCore_addOnState (m : EventStateMachine) (s : Nat) (f : StateFunction) :
    SameCore m (m.addOnState s f).1 := by
  unfold EventStateMachine.addOnState
  split
  · exact sameCore_refl _
  · exact sameCore_setStateDefn _ _ _

lemma sameCore_addOnExit (m : EventStateMachine) (s : Nat) (cb : StateCallback) :
    SameCore m (m.addOnExit s cb).1 := by
  unfold EventStateMachine.addOnExit
  split
  · exact sameCore_refl _
  · exact sameCore_setStateDefn _ _ _

lemma sameCore_removeTimeout (m : EventStateMachine) (s d : Nat) :
    SameCore m (m.removeTimeout s d).1 := by
  unfold EventStateMachine.removeTimeout
  split
  · exact sameCore_refl _
  · dsimp only
    split
    · exact sameCore_setStateDefn _ _ _
    · exact sameCore_refl _

lemma sameCore_removeOnEnter (m : EventStateMachine) (s : Nat) (cb : StateCallback) :
    SameCore m (m.removeOnEnter s cb).1 := by
  unfold EventStateMachine.removeOnEnter
  split
  · exact sameCore_refl _
  · dsimp only
    split
    · exact sameCore_setStateDefn _ _ _
    · exact sameCore_refl _

lemma sameCore_removeOnState (m : EventStateMachine) (s : Nat) (f : StateFunction) :
    SameCore m (m.removeOnState s f).1 := by
  unfold EventStateMachine.removeOnState
  split
  · exact sameCore_refl _
  · dsimp only
    split
    · exact sameCore_setStateDefn _ _ _
    · exact sameCore_refl _

lemma sameCore_removeOnExit (m : EventStateMachine) (s : Nat) (cb : StateCallback) :
    SameCore m (m.removeOnExit s cb).1 := by
  unfold EventStateMachine.removeOnExit
  split
  · exact sameCore_refl _
  · dsimp only
    split
    · exact sameCore_setStateDefn _ _ _
    · exact sameCore_refl _

lemma sameCore_addBeforeHandler (m : EventStateMachine) (g : GlobalStateCallback) :
    SameCore m (m.addBeforeStateChangeHandler g) := by
  unfold EventStateMachine.addBeforeStateChangeHandler
  split
  · exact ⟨rfl, rfl, rfl, rfl⟩
  · exact sameCore_refl _

lemma sameCore_addAfterHandler (m : EventStateMachine) (g : GlobalStateCallback) :
    SameCore m (m.addAfterStateChangeHandler g) := by
  unfold EventStateMachine.addAfterStateChangeHandler
  split
  · exact ⟨rfl, rfl, rfl, rfl⟩
  · exact sameCore_refl _

lemma sameCore_removeBeforeHandler (m : EventStateMachine) (g : GlobalStateCallback) :
    SameCore m (m.removeBeforeStateChangeHandler g).1 := by
  unfold EventStateMachine.removeBeforeStateChangeHandler
  split
  · exact ⟨rfl, rfl, rfl, rfl⟩
  · exact sameCore_refl _

lemma sameCore_removeAfterHandler (m : EventStateMachine) (g : GlobalStateCallback) :
    SameCore m (m.removeAfterStateChangeHandler g).1 := by
  unfold EventStateMachine.removeAfterStateChangeHandler
  split
  · exact ⟨rfl, rfl, rfl, rfl⟩
  · exact sameCore_refl _

lemma sameCore_configureState (m : EventStateMachine) (s d : Nat)
    (e x t : StateCallback) (f : StateFunction) :
    SameCore m (m.configureState s d e f x t) := by
  unfold EventStateMachine.configureState
  split
  · exact sameCore_refl _
  · dsimp only
    have h1 : SameCore m (if e ≠ none then (m.addOnEnter s e).1 else m) := by
      split
      · exact sameCore_addOnEnter _ _ _
      · exact sameCore_refl _
    revert h1
    generalize (if e ≠ none then (m.addOnEnter s e).1 else m) = m1
    intro h1
    have h2 : SameCore m1 (if f ≠ none then (m1.addOnState s f).1 else m1) := by
      split
      · exact sameCore_addOnState _ _ _
      · exact sameCore_refl _
    revert h2
    generalize (if f ≠ none then (m1.addOnState s f).1 else m1) = m2
    intro h2
    have h3 : SameCore m2 (if x ≠ none then (m2.addOnExit s x).1 else m2) := by
      split
      · exact sameCore_addOnExit _ _ _
      · exact sameCore_refl _
    revert h3
    generalize (if x ≠ none then (m2.addOnExit s x).1 else m2) = m3
    intro h3
    refine sameCore_trans h1 (sameCore_trans h2 (sameCore_trans h3 ?_))
    split
    · exact sameCore_addTimeout _ _ _ _
    · exact sameCore_refl _

lemma sameCore_updateTimerStep (now : Nat) (acc : EventStateMachine × List Ev)
    (i : Nat) : SameCore acc.1 (updateTimerStep now acc i).1 := by
  unfold EventStateMachine.updateTimerStep
  dsimp only
  split
  · split
    · exact sameCore_trans (sameCore_setStateDefn _ _ _) (sameCore_onTimeout _ _ _)
    · exact sameCore_setStateDefn _ _ _
  · exact sameCore_refl _

lemma sameCore_timerLoop (now : Nat) (l : List Nat) (acc : EventStateMachine × List Ev) :
    SameCore acc.1 ((l.foldl (updateTimerStep now) acc).1) := by
  induction l generalizing acc with
  | nil => exact sameCore_refl _
  | cons hd tl ih =>
    rw [List.foldl_cons]
    exact sameCore_trans (sameCore_updateTimerStep now acc hd) (ih _)

lemma update_fields (m : EventStateMachine) (now : Nat) :
    (m.update now).1.currentState = m.currentState ∧
    (m.update now).1.previousState = m.previousState ∧
    (m.update now).1.numStates = m.numStates ∧
    (m.update now).1.stateChanged = false := by
  have h := sameCore_timerLoop now
    (List.range (m.stateDef m.currentState).timeouts.length) (m, [])
  unfold EventStateMachine.update
  exact ⟨h.1, h.2.1, h.2.2.1, rfl⟩

/-- Claim C9: a successful transition sets `stateChanged`; a rejected or
same-state `setState` leaves the machine untouched; every `update` call ends
with `stateChanged = false`; and no other public operation modifies the flag,
so it stays put until the next `update` or successful transition. -/
theorem stateChanged_protocol (m : EventStateMachine) (now ns s i d : Nat)
    (cb : StateCallback) (f : StateFunction) (g : GlobalStateCallback) :
    (m.isValidState ns → ns ≠ m.currentState →
      (m.setState now ns).1.stateChanged = true) ∧
    ((m.update now).1.stateChanged = false) ∧
    (¬ m.isValidState ns ∨ ns = m.currentState → m.setState now ns = (m, [])) ∧
    ((m.onTimeout s i).1.stateChanged = m.stateChanged) ∧
    ((m.addTimeout s d cb).1.stateChanged = m.stateChanged) ∧
    ((m.addOnEnter s cb).1.stateChanged = m.stateChanged) ∧
    ((m.addOnState s f).1.stateChanged = m.stateChanged) ∧
    ((m.addOnExit s cb).1.stateChanged = m.stateChanged) ∧
    ((m.removeTimeout s d).1.stateChanged = m.stateChanged) ∧
    ((m.removeOnEnter s cb).1.stateChanged = m.stateChanged) ∧
    ((m.removeOnState s f).1.stateChanged = m.stateChanged) ∧
    ((m.removeOnExit s cb).1.stateChanged = m.stateChanged) ∧
    ((m.addBeforeStateChangeHandler g).stateChanged = m.stateChanged) ∧
    ((m.addAfterStateChangeHandler g).stateChanged = m.stateChanged) ∧
    ((m.removeBeforeStateChangeHandler g).1.stateChanged = m.stateChanged) ∧
    ((m.removeAfterStateChangeHandler g).1.stateChanged = m.stateChanged) ∧
    ((m.configureState s d cb f cb cb).stateChanged = m.stateChanged) := by
  refine ⟨?_, (update_fields m now).2.2.2, ?_,
    (sameCore_onTimeout m s i).2.2.2,
    (sameCore_addTimeout m s d cb).2.2.2,
    (sameCore_addOnEnter m s cb).2.2.2,
    (sameCore_addOnState m s f).2.2.2,
    (sameCore_addOnExit m s cb).2.2.2,
    (sameCore_removeTimeout m s d).2.2.2,
    (sameCore_removeOnEnter m s cb).2.2.2,
    (sameCore_removeOnState m s f).2.2.2,
    (sameCore_removeOnExit m s cb).2.2.2,
    (sameCore_addBeforeHandler m g).2.2.2,
    (sameCore_addAfterHandler m g).2.2.2,
    (sameCore_removeBeforeHandler m g).2.2.2,
    (sameCore_removeAfterHandler m g).2.2.2,
    (sameCore_configureState m s d cb cb cb f).2.2.2⟩
  · intro hv hne
    simp [EventStateMachine.setState, hv, hne]
  · rintro (h | h)
    · unfold EventStateMachine.setState
      rw [if_pos h]
    · by_cases hv : m.isValidState ns
      · unfold EventStateMachine.setState
        rw [if_neg (not_not_intro hv), if_pos h]
      · unfold EventStateMachine.setState
        rw [if_pos hv]

/-- Witness for `stateChanged_protocol`: a fresh 2-state machine transitions
to state 1 with the flag set, and the following `update` clears it. -/
theorem stateChanged_protocol_witness :
    (((construct 2 0).setState 5 1).1.stateChanged = true) ∧
    (((construct 2 0).update 0).1.stateChanged = false) ∧
    ((construct 2 0).setState 5 0 = (construct 2 0, [])) := by
  have h := stateChanged_protocol (construct 2 0) 5 1 0 0 0 none none none
  have h0 := stateChanged_protocol (construct 2 0) 5 0 0 0 0 none none none
  exact ⟨h.1 (by decide) (by decide),
    (stateChanged_protocol (construct 2 0) 0 1 0 0 0 none none none).2.1,
    h0.2.2.1 (Or.inr rfl)⟩

lemma validStateInv_of_sameCore {m m' : EventStateMachine} (h : SameCore m m')
    (hv : ValidStateInv m) : ValidStateInv m' := by
  obtain ⟨h1, h2, h3, -⟩ := h
  exact ⟨h1 ▸ h3 ▸ hv.1, h2 ▸ h3 ▸ hv.2⟩

/-- Claim C4: a machine constructed with `numStates > 0` satisfies
`currentState < numStates ∧ previousState < numStates`, and every public
operation — `setState`, `update`, `onTimeout`, every add/remove, and
`configureState` — preserves that invariant. -/
theorem valid_state_invariant (m : EventStateMachine) (h : ValidStateInv m)
    (now ns s i d n t0 : Nat) (cb : StateCallback) (f : StateFunction)
    (g : GlobalStateCallback) :
    (0 < n → ValidStateInv (construct n t0)) ∧
    ValidStateInv (m.setState now ns).1 ∧
    ValidStateInv (m.update now).1 ∧
    ValidStateInv (m.onTimeout s i).1 ∧
    ValidStateInv (m.addTimeout s d cb).1 ∧
    ValidStateInv (m.addOnEnter s cb).1 ∧
    ValidStateInv (m.addOnState s f).1 ∧
    ValidStateInv (m.addOnExit s cb).1 ∧
    ValidStateInv (m.removeTimeout s d).1 ∧
    ValidStateInv (m.removeOnEnter s cb).1 ∧
    ValidStateInv (m.removeOnState s f).1 ∧
    ValidStateInv (m.removeOnExit s cb).1 ∧
    ValidStateInv (m.addBeforeStateChangeHandler g) ∧
    ValidStateInv (m.addAfterStateChangeHandler g) ∧
    ValidStateInv (m.removeBeforeStateChangeHandler g).1 ∧
    ValidStateInv (m.removeAfterStateChangeHandler g).1 ∧
    ValidStateInv (m.configureState s d cb f cb cb) := by
  refine ⟨?_, ?_, ?_,
    validStateInv_of_sameCore (sameCore_onTimeout m s i) h,
    validStateInv_of_sameCore (sameCore_addTimeout m s d cb) h,
    validStateInv_of_sameCore (sameCore_addOnEnter m s cb) h,
    validStateInv_of_sameCore (sameCore_addOnState m s f) h,
    validStateInv_of_sameCore (sameCore_addOnExit m s cb) h,
    validStateInv_of_sameCore (sameCore_removeTimeout m s d) h,
    validStateInv_of_sameCore (sameCore_removeOnEnter m s cb) h,
    validStateInv_of_sameCore (sameCore_removeOnState m s f) h,
    validStateInv_of_sameCore (sameCore_removeOnExit m s cb) h,
    validStateInv_of_sameCore (sameCore_addBeforeHandler m g) h,
    validStateInv_of_sameCore (sameCore_addAfterHandler m g) h,
    validStateInv_of_sameCore (sameCore_removeBeforeHandler m g) h,
    validStateInv_of_sameCore (sameCore_removeAfterHandler m g) h,
    validStateInv_of_sameCore (sameCore_configureState m s d cb cb cb f) h⟩
  · intro hn
    exact ⟨hn, hn⟩
  · by_cases hv : m.isValidState ns
    · by_cases hne : ns = m.currentState
      · unfold EventStateMachine.setState
        rw [if_neg (not_not_intro hv), if_pos hne]
        exact h
      · unfold EventStateMachine.setState
        rw [if_neg (not_not_intro hv), if_neg hne]
        exact ⟨hv, h.1⟩
    · unfold EventStateMachine.setState
      rw [if_pos hv]
      exact h
  · have hu := update_fields m now
    exact ⟨hu.1 ▸ hu.2.2.1 ▸ h.1, hu.2.1 ▸ hu.2.2.1 ▸ h.2⟩

/-- Witness for `valid_state_invariant` on a concrete machine after a
transition. -/
theorem valid_state_invariant_witness :
    ValidStateInv ((construct 3 0).setState 5 2).1 ∧
    ValidStateInv ((construct 3 0).update 0).1 := by
  have h := valid_state_invariant (construct 3 0) (by exact ⟨by decide, by decide⟩)
    5 2 0 0 0 1 0 none none none
  have h2 := valid_state_invariant (construct 3 0) (by exact ⟨by decide, by decide⟩)
    0 2 0 0 0 1 0 none none none
  exact ⟨h.2.1, h2.2.2.1⟩

lemma findIdx_first_match {α : Type} (p : α → Bool) (pre suf : List α) (x : α)
    (hpre : ∀ y ∈ pre, p y = false) (hx : p x = true) (i : Nat) :
    List.findIdx? p (pre ++ x :: suf) i = some (i + pre.length) := by
  induction pre generalizing i with
  | nil => simp [List.findIdx?_cons, hx]
  | cons hd tl ih =>
    have hhd : p hd = false := hpre hd (by simp)
    rw [List.cons_append, List.findIdx?_cons, hhd, if_neg Bool.false_ne_true]
    rw [ih (fun y hy => hpre y (by simp [hy])) (i + 1), List.length_cons]
    congr 1
    omega

lemma findIdx_first_match0 {α : Type} (p : α → Bool) (pre suf : List α) (x : α)
    (hpre : ∀ y ∈ pre, p y = false) (hx : p x = true) :
    List.findIdx? p (pre ++ x :: suf) = some pre.length := by
  simpa using findIdx_first_match p pre suf x hpre hx 0

lemma findIdx_no_match {α : Type} (p : α → Bool) (l : List α)
    (h : ∀ y ∈ l, p y = false) (i : Nat) :
    List.findIdx? p l i = none := by
  induction l generalizing i with
  | nil => simp
  | cons hd tl ih =>
    rw [List.findIdx?_cons, h hd (by simp), if_neg Bool.false_ne_true]
    exact ih (fun y hy => h y (by simp [hy])) (i + 1)

lemma eraseIdx_append_len {α : Type} (pre suf : List α) (x : α) :
    (pre ++ x :: suf).eraseIdx pre.length = pre ++ suf := by
  induction pre with
  | nil => simp
  | cons hd tl ih => simp [ih]

lemma set_append_len {α : Type} (pre suf : List α) (x y : α) :
    (pre ++ x :: suf).set pre.length y = pre ++ y :: suf := by
  induction pre with
  | nil => rfl
  | cons hd tl ih => simp [ih]

lemma getD_append_len {α : Type} (pre suf : List α) (x d : α) :
    (pre ++ x :: suf).getD pre.length d = x := by
  induction pre with
  | nil => rfl
  | cons hd tl ih => simpa using ih

/-- Claim C8: each remove operation on a valid state erases exactly the first
matching entry (by callback identity, or by duration for `removeTimeout`) and
returns `true`, leaving any later duplicates in place; with no match it
returns `false` and changes nothing; `removeTimeout` additionally detaches
and deactivates the matched entry's timer before erasing it (the
`cancelTimer` event). -/
theorem remove_first_match (m : EventStateMachine) (s d : Nat)
    (cb : StateCallback) (f : StateFunction) (hs : m.isValidState s) :
    (∀ pre suf, (m.stateDef s).onEnters = pre ++ cb :: suf → cb ∉ pre →
      m.removeOnEnter s cb =
        (m.setStateDefn s { m.stateDef s with onEnters := pre ++ suf }, true)) ∧
    (cb ∉ (m.stateDef s).onEnters → m.removeOnEnter s cb = (m, false)) ∧
    (∀ pre suf, (m.stateDef s).onStates = pre ++ f :: suf → f ∉ pre →
      m.removeOnState s f =
        (m.setStateDefn s { m.stateDef s with onStates := pre ++ suf }, true)) ∧
    (f ∉ (m.stateDef s).onStates → m.removeOnState s f = (m, false)) ∧
    (∀ pre suf, (m.stateDef s).onExits = pre ++ cb :: suf → cb ∉ pre →
      m.removeOnExit s cb =
        (m.setStateDefn s { m.stateDef s with onExits := pre ++ suf }, true)) ∧
    (cb ∉ (m.stateDef s).onExits → m.removeOnExit s cb = (m, false)) ∧
    (∀ pre x suf, (m.stateDef s).timeouts = pre ++ x :: suf →
      (∀ tj ∈ pre, tj.duration ≠ d) → x.duration = d →
      m.removeTimeout s d =
        (m.setStateDefn s { m.stateDef s with timeouts := pre ++ suf }, true,
         [Ev.cancelTimer s pre.length])) ∧
    ((∀ tj ∈ (m.stateDef s).timeouts, tj.duration ≠ d) →
      m.removeTimeout s d = (m, false, [])) := by
  refine ⟨?_, ?_, ?_, ?_, ?_, ?_, ?_, ?_⟩
  · intro pre suf hlist hpre
    have hpre' : ∀ y ∈ pre, (y == cb) = false := fun y hy =>
      beq_eq_false_iff_ne.2 (fun hEq => hpre (hEq ▸ hy))
    unfold EventStateMachine.removeOnEnter
    rw [if_neg (not_not_intro hs)]
    dsimp only
    rw [hlist, findIdx_first_match0 _ pre suf cb hpre' (by simp)]
    dsimp only
    rw [eraseIdx_append_len]
  · intro hno
    have hno' : ∀ y ∈ (m.stateDef s).onEnters, (y == cb) = false := fun y hy =>
      beq_eq_false_iff_ne.2 (fun hEq => hno (hEq ▸ hy))
    unfold EventStateMachine.removeOnEnter
    rw [if_neg (not_not_intro hs)]
    dsimp only
    rw [findIdx_no_match _ _ hno']
  · intro pre suf hlist hpre
    have hpre' : ∀ y ∈ pre, (y == f) = false := fun y hy =>
      beq_eq_false_iff_ne.2 (fun hEq => hpre (hEq ▸ hy))
    unfold EventStateMachine.removeOnState
    rw [if_neg (not_not_intro hs)]
    dsimp only
    rw [hlist, findIdx_first_match0 _ pre suf f hpre' (by simp)]
    dsimp only
    rw [eraseIdx_append_len]
  · intro hno
    have hno' : ∀ y ∈ (m.stateDef s).onStates, (y == f) = false := fun y hy =>
      beq_eq_false_iff_ne.2 (fun hEq => hno (hEq ▸ hy))
    unfold EventStateMachine.removeOnState
    rw [if_neg (not_not_intro hs)]
    dsimp only
    rw [findIdx_no_match _ _ hno']
  · intro pre suf hlist hpre
    have hpre' : ∀ y ∈ pre, (y == cb) = false := fun y hy =>
      beq_eq_false_iff_ne.2 (fun hEq => hpre (hEq ▸ hy))
    unfold EventStateMachine.removeOnExit
    rw [if_neg (not_not_intro hs)]
    dsimp only
    rw [hlist, findIdx_first_match0 _ pre suf cb hpre' (by simp)]
    dsimp only
    rw [eraseIdx_append_len]
  · intro hno
    have hno' : ∀ y ∈ (m.stateDef s).onExits, (y == cb) = false := fun y hy =>
      beq_eq_false_iff_ne.2 (fun hEq => hno (hEq ▸ hy))
    unfold EventStateMachine.removeOnExit
    rw [if_neg (not_not_intro hs)]
    dsimp only
    rw [findIdx_no_match _ _ hno']
  · intro pre x suf hlist hpre hx
    have hpre' : ∀ tj ∈ pre, (tj.duration == d) = false := fun tj htj =>
      beq_eq_false_iff_ne.2 (hpre tj htj)
    unfold EventStateMachine.removeTimeout
    rw [if_neg (not_not_intro hs)]
    dsimp only
    rw [hlist, findIdx_first_match0 (fun ti => ti.duration == d) pre suf x hpre'
      (by simp [hx])]
    dsimp only
    rw [getD_append_len, set_append_len, eraseIdx_append_len]
  · intro hno
    have hno' : ∀ tj ∈ (m.stateDef s).timeouts, (tj.duration == d) = false :=
      fun tj htj => beq_eq_false_iff_ne.2 (hno tj htj)
    unfold EventStateMachine.removeTimeout
    rw [if_neg (not_not_intro hs)]
    dsimp only
    rw [findIdx_no_match _ _ hno']

/-- Witness for `remove_first_match` on `duplicateEntryDemo`: removing
callback 4 from the duplicated onEnter list drops only the first copy,
removing an absent callback reports false, `removeTimeout 25` cancels and
drops only the first 25 ms entry, and `removeTimeout 30` reports false. -/
theorem remove_first_match_witness :
    ((duplicateEntryDemo.removeOnEnter 0 (some 4)).1.stateDef 0).onEnters =
      [some 6, some 4] ∧
    (duplicateEntryDemo.removeOnEnter 0 (some 4)).2 = true ∧
    duplicateEntryDemo.removeOnEnter 0 (some 5) = (duplicateEntryDemo, false) ∧
    ((duplicateEntryDemo.removeTimeout 0 25).1.stateDef 0).timeouts.map
      TimeoutInfo.callback = [some 9] ∧
    (duplicateEntryDemo.removeTimeout 0 25).2.2 = [Ev.cancelTimer 0 0] ∧
    duplicateEntryDemo.removeTimeout 0 30 = (duplicateEntryDemo, false, []) := by
  have h25 := remove_first_match duplicateEntryDemo 0 25 (some 4) (some 4) (by decide)
  have h30 := remove_first_match duplicateEntryDemo 0 30 (some 5) (some 4) (by decide)
  have he := h25.1 [] [some 6, some 4] (by decide) (by decide)
  have ht := h25.2.2.2.2.2.2.1 []
    ({ duration := 25, callback := some 4, active := false,
       stateIndex := 0, timeoutIndex := 0 } : TimeoutInfo)
    [{ duration := 25, callback := some 9, active := false,
       stateIndex := 0, timeoutIndex := 1 }]
    (by decide) (by decide) (by decide)
  refine ⟨?_, ?_, h30.2.1 (by decide), ?_, ?_, h30.2.2.2.2.2.2.2 (by decide)⟩
  · rw [he]
    decide
  · rw [he]
  · rw [ht]
    decide
  · rw [ht]
    decide

/-- Claim C1: a valid transition to a different state performs exactly the
sequence: before-handlers in registration order with `(cur, new)`, one cancel
per timer of the old state, the old state's exit callbacks in registration
order with `(old, new)`, the field update (`previousState := old`,
`currentState := new`, `stateEnteredTimestamp := now`, `stateChanged :=
true`), the new state's enter callbacks in registration order with
`(new, old)`, one arming per timeout entry of the new state, and the
after-handlers in registration order with `(old, new)` — with exactly one
exit pass and one enter pass. -/
theorem setState_transition (m : EventStateMachine) (now ns : Nat)
    (hv : m.isValidState ns) (hne : ns ≠ m.currentState) :
    (m.setState now ns).2 =
      m.beforeStateChangeHandlers.map (fun h => Ev.beforeH h m.currentState ns) ++
      (List.range (m.stateDef m.currentState).timeouts.length).map
        (fun i => Ev.cancelTimer m.currentState i) ++
      (m.stateDef m.currentState).onExits.map
        (fun cb => Ev.exitCb cb m.currentState ns) ++
      (m.stateDef ns).onEnters.map (fun cb => Ev.enterCb cb ns m.currentState) ++
      (List.range (m.stateDef ns).timeouts.length).map
        (fun i => Ev.armTimer ns i ((m.stateDef ns).timeouts.getD i {}).duration) ++
      m.afterStateChangeHandlers.map (fun h => Ev.afterH h m.currentState ns) ∧
    (m.setState now ns).1.previousState = m.currentState ∧
    (m.setState now ns).1.currentState = ns ∧
    (m.setState now ns).1.stateEnteredTime = now ∧
    (m.setState now ns).1.stateChanged = true := by
  unfold EventStateMachine.setState
  rw [if_neg (not_not_intro hv), if_neg hne]
  refine ⟨?_, by simp, by simp, by simp, by simp⟩
  by_cases hl : m.currentState < m.states.length
  · simp [EventStateMachine.stateDef, EventStateMachine.setStateDefn,
      List.getElem?_set, hl, Ne.symm hne,
      apply_ite (fun o : Option StateDefinition => o.getD {}),
      apply_ite StateDefinition.onExits, apply_ite StateDefinition.onEnters,
      apply_ite StateDefinition.timeouts]
  · have hnone : m.states[m.currentState]? = none :=
      List.getElem?_eq_none (Nat.le_of_not_lt hl)
    simp [EventStateMachine.stateDef, EventStateMachine.setStateDefn,
      List.getElem?_set, hl, hnone, Ne.symm hne,
      apply_ite (fun o : Option StateDefinition => o.getD {}),
      apply_ite StateDefinition.onExits, apply_ite StateDefinition.onEnters,
      apply_ite StateDefinition.timeouts]

/-- Witness for `setState_transition` on `transitionDemo` (state 0 → 1): the
full trace in order and the updated fields. -/
theorem setState_transition_witness :
    (transitionDemo.setState 5 1).2 =
      [Ev.beforeH (some 30) 0 1, Ev.cancelTimer 0 0,
       Ev.exitCb (some 10) 0 1, Ev.exitCb (some 11) 0 1,
       Ev.enterCb (some 20) 1 0, Ev.enterCb (some 21) 1 0,
       Ev.armTimer 1 0 100, Ev.afterH (some 40) 0 1] ∧
    (transitionDemo.setState 5 1).1.previousState = 0 ∧
    (transitionDemo.setState 5 1).1.currentState = 1 ∧
    (transitionDemo.setState 5 1).1.stateEnteredTime = 5 ∧
    (transitionDemo.setState 5 1).1.stateChanged = true := by
  have h := setState_transition transitionDemo 5 1 (by decide) (by decide)
  refine ⟨?_, h.2.1, h.2.2.1, h.2.2.2.1, h.2.2.2.2⟩
  rw [h.1]
  decide

end ESM
